import Mathlib

/-!
Shallow embedding of the annotation creation/publication pipeline of the
atproto-annotations repository, together with proofs of the specified
properties.

Definitions are translated from the repository sources:
  - src/modules/annotations/domain/aggregates/Annotation.ts
  - the ATProto publisher adapter (publish / unpublish)
  - src/modules/atproto/domain/ATUri.ts
  - src/modules/annotations/domain/value-objects/URI.ts
  - the CreateAndPublishAnnotationsFromTemplateUseCase (execute)

Parts of the repository that are only referenced by the sources above
(the AnnotationsFromTemplate aggregate, Guard, the value factories) are
modelled from the specification, each marked in its doc comment.

JavaScript strings are modelled as Lean String, Date values as Nat
timestamps, thrown exceptions as Except, and the Result success/failure
type as Except with the error message or error object in the error case.
-/

/-- Timestamps stand in for JavaScript Date values. -/
abbrev Date := Nat

/-- Type tag of an annotation value and of a field definition. -/
inductive ValueType
  | rating
  | dyad
  | triad
deriving DecidableEq, Repr

/-- String form of a type tag, as stored in a field definition. -/
def ValueType.value : ValueType → String
  | .rating => "rating"
  | .dyad => "dyad"
  | .triad => "triad"

/-- Typed annotation value with a type-specific payload. -/
inductive AnnotationValue
  | rating (rating : Nat)
  | dyad (value : ℚ)
  | triad (vertexA vertexB vertexC : ℚ)
deriving DecidableEq, Repr

/-- Type tag carried by a value. -/
def AnnotationValue.getType : AnnotationValue → ValueType
  | .rating _ => .rating
  | .dyad _ => .dyad
  | .triad _ _ _ => .triad

/-- Curator identity value object (a DID string). -/
structure CuratorId where
  value : String
deriving DecidableEq, Repr

/-- URI value object wrapping a validated string. -/
structure URI where
  value : String
deriving DecidableEq, Repr

/-- Free-text note value object. -/
structure AnnotationNote where
  value : String
deriving DecidableEq, Repr

/-- Ledger coordinate of a written record: a (uri, cid) pair. -/
structure PublishedRecordId where
  uri : String
  cid : String
deriving DecidableEq, Repr

/-- Type-bearing part of a field definition.  The type tag determines the
shape accepted by values claiming this field. -/
structure FieldDefinition where
  type : ValueType
deriving DecidableEq, Repr

/-- A named, typed field definition owned by a curator. -/
structure AnnotationField where
  id : String
  curatorId : CuratorId
  name : String
  description : String
  definition : FieldDefinition
deriving DecidableEq, Repr

/-- Field id projection of a field. -/
def AnnotationField.fieldId (f : AnnotationField) : String := f.id

/-- Modelled from the spec: an AnnotationField validates that a candidate
value matches its declared type; the value matches exactly when its type
tag equals the type tag of the field definition. -/
def AnnotationValue.matchesFieldType (v : AnnotationValue) (f : AnnotationField) : Bool :=
  v.getType == f.definition.type

/-- Modelled from the spec: two values are of the same type exactly when
their type tags agree. -/
def AnnotationValue.isSameType (v w : AnnotationValue) : Bool :=
  v.getType == w.getType

/-- A template entry: one field together with its required flag. -/
structure TemplateField where
  field : AnnotationField
  required : Bool
deriving DecidableEq, Repr

/-- A schema: an ordered list of fields, each flagged required or optional. -/
structure AnnotationTemplate where
  id : String
  curatorId : CuratorId
  name : String
  description : String
  annotationFields : List TemplateField
deriving DecidableEq, Repr

/-- State of one annotation aggregate (AnnotationProps after construction,
together with the entity identity). -/
structure Annotation where
  id : String
  curatorId : CuratorId
  url : URI
  annotationField : AnnotationField
  value : AnnotationValue
  annotationTemplateIds : List String
  note : Option AnnotationNote
  createdAt : Option Date
  publishedRecordId : Option PublishedRecordId
deriving DecidableEq, Repr

/-- Field id projection of an annotation. -/
def Annotation.annotationFieldId (a : Annotation) : String := a.annotationField.id

/-- Raw creation properties of an annotation; the four required fields are
Options, modelling possibly-absent (null or undefined) arguments. -/
structure AnnotationProps where
  curatorId : Option CuratorId
  url : Option URI
  annotationField : Option AnnotationField
  value : Option AnnotationValue
  annotationTemplateIds : Option (List String)
  note : Option AnnotationNote
  createdAt : Option Date
  publishedRecordId : Option PublishedRecordId
deriving DecidableEq, Repr

/-- Annotation.create from Annotation.ts.  The guard against null or
undefined arguments (Guard.againstNullOrUndefinedBulk, modelled from the
spec) checks curatorId, url, annotationField, value in that order and
fails naming the first absent one; then the value must match the type of
the field; on success template ids default to the empty list and
createdAt defaults to the current time `now`. -/
def Annotation.create (props : AnnotationProps) (id : String) (now : Date) :
    Except String Annotation :=
  match props.curatorId, props.url, props.annotationField, props.value with
  | none, _, _, _ => .error "curatorId is null or undefined"
  | some _, none, _, _ => .error "url is null or undefined"
  | some _, some _, none, _ => .error "annotationField is null or undefined"
  | some _, some _, some _, none => .error "value is null or undefined"
  | some curatorId, some url, some annotationField, some value =>
    if !(value.matchesFieldType annotationField) then
      .error "Value does not match field type"
    else
      .ok {
        id := id
        curatorId := curatorId
        url := url
        annotationField := annotationField
        value := value
        annotationTemplateIds := props.annotationTemplateIds.getD []
        note := props.note
        createdAt := some (props.createdAt.getD now)
        publishedRecordId := props.publishedRecordId }

/-- Annotation.updatePublishedRecordId: unconditionally sets the published
record id. -/
def Annotation.updatePublishedRecordId (a : Annotation) (r : PublishedRecordId) :
    Annotation :=
  { a with publishedRecordId := some r }

/-- Annotation.markAsPublished: unconditionally sets the published record
id. -/
def Annotation.markAsPublished (a : Annotation) (r : PublishedRecordId) :
    Annotation :=
  { a with publishedRecordId := some r }

/-- Error raised by updateValue on a value of a different type. -/
inductive UpdateAnnotationError
  | invalidValueType
deriving DecidableEq, Repr

/-- Annotation.updateValue: fails when the new value is not of the same
type as the current value, otherwise replaces the value. -/
def Annotation.updateValue (a : Annotation) (v : AnnotationValue) :
    Except UpdateAnnotationError Annotation :=
  if !(a.value.isSameType v) then .error .invalidValueType
  else .ok { a with value := v }

/-- One mutation step the pipeline can perform on an annotation; a failing
updateValue leaves the annotation unchanged. -/
inductive PipelineOp
  | update (v : AnnotationValue)
  | mark (r : PublishedRecordId)
  | setRecordId (r : PublishedRecordId)
deriving DecidableEq, Repr

/-- Application of one pipeline operation to an annotation. -/
def applyOp (a : Annotation) : PipelineOp → Annotation
  | .update v =>
    match a.updateValue v with
    | .ok a2 => a2
    | .error _ => a
  | .mark r => a.markAsPublished r
  | .setRecordId r => a.updatePublishedRecordId r

/-- Batch-level error of the AnnotationsFromTemplate aggregate; the
missing-required-fields case names the field ids that are not covered. -/
inductive AFTError
  | curatorMismatch
  | duplicateFields
  | missingRequiredFields (fieldIds : List String)
deriving DecidableEq, Repr

/-- Human-readable message of a batch-level error. -/
def AFTError.message : AFTError → String
  | .curatorMismatch => "All annotations must belong to the batch curator"
  | .duplicateFields => "Duplicate annotation fields in batch"
  | .missingRequiredFields _ => "Missing required fields"

/-- A batch of annotations bound to the template they claim to satisfy. -/
structure AnnotationsFromTemplate where
  annotations : List Annotation
  template : AnnotationTemplate
  curatorId : CuratorId
  createdAt : Date
deriving DecidableEq, Repr

/-- Ids of the required template fields not covered by any annotation of
the batch, in template order. -/
def missingRequiredIds (anns : List Annotation) (template : AnnotationTemplate) :
    List String :=
  (template.annotationFields.filter
    (fun tf => tf.required && !(anns.any (fun a => a.annotationField.id == tf.field.id)))).map
    (fun tf => tf.field.id)

/-- Modelled from the spec: AnnotationsFromTemplate.create validates, in
order, (1) that every annotation of the batch has the batch curator id,
(2) that the field ids referenced by the annotations contain no
duplicates, (3) that every field marked required on the template is
covered by an annotation of the batch, failing with the corresponding
error (naming the missing fields for check 3); on success it wraps the
validated annotations and template. -/
def AnnotationsFromTemplate.create (anns : List Annotation)
    (template : AnnotationTemplate) (curatorId : CuratorId) (createdAt : Date) :
    Except AFTError AnnotationsFromTemplate :=
  if anns.any (fun a => a.curatorId.value != curatorId.value) then
    .error .curatorMismatch
  else if !(anns.map (fun a => a.annotationField.id)).Nodup then
    .error .duplicateFields
  else if !(missingRequiredIds anns template).isEmpty then
    .error (.missingRequiredFields (missingRequiredIds anns template))
  else
    .ok { annotations := anns, template := template,
          curatorId := curatorId, createdAt := createdAt }

/-- Lookup of a published record id in the map from annotation ids;
association lists model the JavaScript Map handed over by the publisher. -/
def lookupRecordId (m : List (String × PublishedRecordId)) (id : String) :
    Option PublishedRecordId :=
  (m.find? (fun p => p.1 == id)).map (fun p => p.2)

/-- Modelled from the spec: markAllAnnotationsAsPublished requires the map
to contain an entry for every annotation id of the batch; if any is
missing it fails and the batch is left unchanged (the all-or-nothing
check precedes all mutation); on success it applies the
individual mark-published transition of each annotation.  The returned pair carries the
(possibly updated) aggregate and the error, if any. -/
def AnnotationsFromTemplate.markAllAnnotationsAsPublished
    (aft : AnnotationsFromTemplate) (m : List (String × PublishedRecordId)) :
    AnnotationsFromTemplate × Option String :=
  if aft.annotations.all (fun a => (lookupRecordId m a.id).isSome) then
    ({ aft with annotations := aft.annotations.map (fun a =>
        match lookupRecordId m a.id with
        | some r => a.markAsPublished r
        | none => a) }, none)
  else (aft, some "Missing published record id for annotation")

/-- The fixed ledger collection the publisher writes to. -/
def COLLECTION : String := "app.annos.annotation"

/-- One result of an applyWrites call: either a create confirmation with
the coordinates of the written record, or an operation result of another
kind (its $type tag differs from applyWrites#createResult). -/
inductive WriteResult
  | createResult (uri cid : String)
  | otherResult
deriving DecidableEq, Repr

/-- Tag check for a create confirmation. -/
def WriteResult.isCreate : WriteResult → Bool
  | .createResult _ _ => true
  | .otherResult => false

/-- Published record id built from a create confirmation (dummy values on
any other result, never reached on the success path). -/
def WriteResult.toPublishedRecordId : WriteResult → PublishedRecordId
  | .createResult u c => { uri := u, cid := c }
  | .otherResult => { uri := "", cid := "" }

/-- Response of the external applyWrites call; the result list is optional
in the wire schema. -/
structure AtpResponse where
  results : Option (List WriteResult)
deriving DecidableEq, Repr

/-- One create operation of the multi-write request. -/
structure CreateOp where
  collection : String
  rkey : String
deriving DecidableEq, Repr

/-- One multi-write request to the ledger, under one repository identity. -/
structure ApplyWritesRequest where
  repo : String
  writes : List CreateOp
deriving DecidableEq, Repr

/-- Modelled from the spec: the mapper generates one create operation and
record key per annotation of the batch, in batch order, targeting the
given collection. -/
def toCreateOperations (aft : AnnotationsFromTemplate) (collection : String) :
    List CreateOp :=
  aft.annotations.map (fun a => { collection := collection, rkey := a.id })

/-- The per-index loop of the publisher over the response: position i of the
batch must hold a create confirmation at position i of the result list,
otherwise the whole operation fails; on success each annotation id is
paired with the record id built from its result. -/
def collectResults : List Annotation → List WriteResult →
    Except String (List (String × PublishedRecordId))
  | [], _ => .ok []
  | a :: _, [] => .error ("No create result found for annotation " ++ a.id)
  | a :: anns, w :: ws =>
    if w.isCreate then
      match collectResults anns ws with
      | .ok rest => .ok ((a.id, w.toPublishedRecordId) :: rest)
      | .error e => .error e
    else .error ("No create result found for annotation " ++ a.id)

/-- ATProtoAnnotationsFromTemplatePublisher.publish: requires a curator
DID (the curator id of the first annotation, a non-empty string), sends one
multi-write request with all create operations under that identity, and
maps each annotation to the result at its position.  The second component
of the returned pair is the list of requests issued to the ledger. -/
def publish (aft : AnnotationsFromTemplate) (resp : AtpResponse) :
    Except String (List (String × PublishedRecordId)) × List ApplyWritesRequest :=
  match aft.annotations with
  | [] => (.error "No curator DID found in annotations", [])
  | a0 :: _ =>
    if a0.curatorId.value == "" then
      (.error "No curator DID found in annotations", [])
    else
      (collectResults aft.annotations (resp.results.getD []),
       [{ repo := a0.curatorId.value, writes := toCreateOperations aft COLLECTION }])

/-- Decentralized identifier wrapper. -/
structure DID where
  value : String
deriving DecidableEq, Repr

/-- at://did/collection/rkey coordinates of a ledger record. -/
structure ATUri where
  value : String
  did : DID
  collection : String
  rkey : String
deriving DecidableEq, Repr

/-- JavaScript single-character split on a character list: splits at every
occurrence of the separator, keeping empty segments. -/
def splitChar (sep : Char) : List Char → List (List Char)
  | [] => [[]]
  | c :: cs =>
    match splitChar sep cs with
    | [] => if c = sep then [[], [c]] else [[c]]
    | r :: rs => if c = sep then [] :: r :: rs else (c :: r) :: rs

/-- JavaScript String.split with a single-character separator. -/
def jsSplit (sep : Char) (s : String) : List String :=
  (splitChar sep s.data).map (fun cs => String.mk cs)

/-- ATUri constructor from ATUri.ts: splits the uri on "/" and requires
exactly five segments, else throws "Invalid AT URI"; segments 2, 3, 4 are
the did, collection and record key. -/
def ATUri.make (uri : String) : Except String ATUri :=
  match jsSplit '/' uri with
  | [_, _, p2, p3, p4] =>
    .ok { value := uri, did := { value := p2 }, collection := p3, rkey := p4 }
  | _ => .error "Invalid AT URI"

/-- One delete operation of a batched delete request. -/
structure DeleteOp where
  collection : String
  rkey : String
deriving DecidableEq, Repr

/-- One batched delete request to the ledger, under one repository. -/
structure DeleteRequest where
  repo : String
  writes : List DeleteOp
deriving DecidableEq, Repr

/-- Insertion into the repo-grouping map, preserving first-seen key order
and appending the entry to the group of its repo. -/
def addRecord (groups : List (String × List (String × String)))
    (repo : String) (entry : String × String) :
    List (String × List (String × String)) :=
  if groups.any (fun g => g.1 == repo) then
    groups.map (fun g => if g.1 == repo then (g.1, g.2 ++ [entry]) else g)
  else groups ++ [(repo, [entry])]

/-- The grouping loop of unpublish: the uri of every record is parsed into its
(did, collection, rkey) coordinates (StrongRef.atUri, which applies the
ATUri constructor to the uri of the record) and the (rkey, uri) entry is added
to the group of its repository; the first parse failure aborts the whole
loop. -/
def groupLoop (groups : List (String × List (String × String))) :
    List PublishedRecordId → Except String (List (String × List (String × String)))
  | [] => .ok groups
  | recordId :: rest =>
    match ATUri.make recordId.uri with
    | .error e => .error e
    | .ok atUri =>
      groupLoop (addRecord groups atUri.did.value (atUri.rkey, recordId.uri)) rest

/-- The grouping loop started from the empty map. -/
def groupRecords (recordIds : List PublishedRecordId) :
    Except String (List (String × List (String × String))) :=
  groupLoop [] recordIds

/-- ATProtoAnnotationsFromTemplatePublisher.unpublish: groups all record
ids by repository, then issues one batched delete request per repository;
a parse failure during grouping is caught and returned as an error with
no delete request issued.  The second component of the pair is the list
of delete requests issued to the ledger. -/
def unpublish (recordIds : List PublishedRecordId) :
    Except String Unit × List DeleteRequest :=
  match groupRecords recordIds with
  | .error e => (.error e, [])
  | .ok groups =>
    (.ok (),
     groups.map (fun g =>
       { repo := g.1,
         writes := g.2.map (fun rec => { collection := COLLECTION, rkey := rec.1 }) }))

/-- ASCII letter-or-digit character class ([a-zA-Z0-9]). -/
def isAsciiAlnum (c : Char) : Bool :=
  (('a' ≤ c && c ≤ 'z') || ('A' ≤ c && c ≤ 'Z') || ('0' ≤ c && c ≤ '9'))

/-- Authority character class of the ledger uri pattern ([a-zA-Z0-9.-]). -/
def isAuthorityChar (c : Char) : Bool :=
  isAsciiAlnum c || c = '.' || c = '-'

/-- Collection character class of the ledger uri pattern ([a-zA-Z0-9.]). -/
def isCollectionChar (c : Char) : Bool :=
  isAsciiAlnum c || c = '.'

/-- Backtracking matcher for "one or more characters of class p, then a
match of the continuation k". -/
def plusThen (p : Char → Bool) (k : List Char → Bool) : List Char → Bool
  | [] => false
  | c :: cs => p c && (k cs || plusThen p k cs)

/-- Match of the ledger uri pattern after its "at://" head: an authority
segment, a slash, a collection segment, a slash and at least one record
key character (the pattern is unanchored at its end). -/
def matchAfterScheme : List Char → Bool :=
  plusThen isAuthorityChar (fun cs =>
    match cs with
    | '/' :: cs2 =>
      plusThen isCollectionChar (fun cs3 =>
        match cs3 with
        | '/' :: cs4 => plusThen isAsciiAlnum (fun _ => true) cs4
        | _ => false) cs2
    | _ => false)

/-- Match of the full ledger uri pattern starting at the head of the
character list. -/
def matchLedgerHere (cs : List Char) : Bool :=
  match cs with
  | 'a' :: 't' :: ':' :: '/' :: '/' :: rest => matchAfterScheme rest
  | _ => false

/-- Unanchored regular-expression test from URI.ts: the ledger uri
pattern may match starting at any position of the string. -/
def ledgerPatternTest : List Char → Bool
  | [] => false
  | c :: cs => matchLedgerHere (c :: cs) || ledgerPatternTest cs

/-- The "at://" head test (String.startsWith of the source). -/
def startsWithAtScheme (s : String) : Bool :=
  match s.data with
  | 'a' :: 't' :: ':' :: '/' :: '/' :: _ => true
  | _ => false

/-- URI.create from URI.ts, parametrized by the host URL parser
(the WHATWG URL constructor, external to the repository): a string
accepted by the URL parser is valid; otherwise a string with the "at://"
head must contain a match of the ledger uri pattern; anything else fails
with a format error.  The function is total: no exception crosses its
boundary. -/
def URI.create (isURL : String → Bool) (value : String) : Except String URI :=
  if isURL value then .ok { value := value }
  else if startsWithAtScheme value then
    if ledgerPatternTest value.data then .ok { value := value }
    else .error ("Invalid AT URI format: " ++ value)
  else .error ("Invalid URI format: " ++ value)

/-- Modelled from the spec: CuratorId wraps a curator identity and its
creation fails on a malformed (empty) identifier string. -/
def CuratorId.create (s : String) : Except String CuratorId :=
  if s == "" then .error "Invalid curator id" else .ok { value := s }

/-- Modelled from the spec: AnnotationNote wraps the note text. -/
def AnnotationNote.create (s : String) : AnnotationNote := { value := s }

/-- Raw value payload of the input DTO, before typing. -/
inductive AnnotationValueInput
  | rating (rating : Nat)
  | dyad (value : ℚ)
  | triad (vertexA vertexB vertexC : ℚ)
deriving DecidableEq, Repr

/-- Modelled from the spec: the value factory builds a typed value of the
requested type from the raw input, failing when the payload does not have
the shape of that type. -/
def AnnotationValueFactory.create (t : ValueType) (input : AnnotationValueInput) :
    Except String AnnotationValue :=
  match t, input with
  | .rating, .rating n => .ok (.rating n)
  | .dyad, .dyad q => .ok (.dyad q)
  | .triad, .triad x y z => .ok (.triad x y z)
  | _, _ => .error "Value input does not match the requested type"

/-- One entry of the use-case input DTO. -/
structure AnnotationInputDTO where
  annotationFieldId : String
  type : String
  value : AnnotationValueInput
  note : Option String
deriving DecidableEq, Repr

/-- Input DTO of the use case. -/
structure CreateAndPublishDTO where
  curatorId : String
  url : String
  templateId : String
  annotations : List AnnotationInputDTO
deriving DecidableEq, Repr

/-- Error taxonomy of the use case response. -/
inductive UCError
  | templateNotFound (templateId : String)
  | creationFailed (message : String)
  | publishFailed (id message : String)
  | saveFailed (id message : String)
deriving DecidableEq, Repr

/-- Success payload of the use case response. -/
structure UCOutput where
  annotationIds : List String
deriving DecidableEq, Repr

/-- The template and field stores the use case reads from (external
collaborators, keyed by id). -/
structure UseCaseEnv where
  templates : List (String × AnnotationTemplate)
  fields : List (String × AnnotationField)
deriving Repr

/-- findById of the template repository. -/
def findTemplate (env : UseCaseEnv) (templateId : String) :
    Option AnnotationTemplate :=
  (env.templates.find? (fun p => p.1 == templateId)).map (fun p => p.2)

/-- findById of the field repository. -/
def findField (env : UseCaseEnv) (fieldId : String) : Option AnnotationField :=
  (env.fields.find? (fun p => p.1 == fieldId)).map (fun p => p.2)

/-- One iteration of the per-input loop of execute: load the field, check
the declared type tag against the defined type of the field, build the note
and the typed value, then build the annotation via Annotation.create with
the template id attached.  The index gives the fresh entity id of the
annotation. -/
def buildOne (env : UseCaseEnv) (curatorId : CuratorId) (url : URI)
    (templateId : String) (now : Date) (idx : Nat) (input : AnnotationInputDTO) :
    Except UCError Annotation :=
  match findField env input.annotationFieldId with
  | none =>
    .error (.creationFailed
      ("Annotation field with ID " ++ input.annotationFieldId ++ " not found"))
  | some annotationField =>
    if annotationField.definition.type.value != input.type then
      .error (.creationFailed
        ("Type mismatch: Field expects " ++ annotationField.definition.type.value
          ++ " but got " ++ input.type))
    else
      match AnnotationValueFactory.create annotationField.definition.type input.value with
      | .error e => .error (.creationFailed ("Invalid annotation value: " ++ e))
      | .ok value =>
        match Annotation.create
            { curatorId := some curatorId
              url := some url
              annotationField := some annotationField
              value := some value
              annotationTemplateIds := some [templateId]
              note := input.note.map AnnotationNote.create
              createdAt := none
              publishedRecordId := none }
            ("ann-" ++ toString idx) now with
        | .error e => .error (.creationFailed e)
        | .ok a => .ok a

/-- The per-input loop of execute, indexed for fresh entity ids. -/
def buildAll (env : UseCaseEnv) (curatorId : CuratorId) (url : URI)
    (templateId : String) (now : Date) :
    Nat → List AnnotationInputDTO → Except UCError (List Annotation)
  | _, [] => .ok []
  | idx, input :: rest =>
    match buildOne env curatorId url templateId now idx input with
    | .error e => .error e
    | .ok a =>
      match buildAll env curatorId url templateId now (idx + 1) rest with
      | .error e => .error e
      | .ok as' => .ok (a :: as')

/-- The fail-fast half of execute, up to and including batch-aggregate
assembly: common value objects, template lookup, per-input annotation
construction and the batch invariant check.  No external or persistent
side effect occurs in this half. -/
def assembleBatch (env : UseCaseEnv) (isURL : String → Bool) (now : Date)
    (dto : CreateAndPublishDTO) : Except UCError AnnotationsFromTemplate :=
  match CuratorId.create dto.curatorId, URI.create isURL dto.url with
  | .error _, _ => .error (.creationFailed "Invalid common properties")
  | .ok _, .error _ => .error (.creationFailed "Invalid common properties")
  | .ok curatorId, .ok url =>
    match findTemplate env dto.templateId with
    | none => .error (.templateNotFound dto.templateId)
    | some template =>
      match buildAll env curatorId url dto.templateId now 0 dto.annotations with
      | .error e => .error e
      | .ok anns =>
        match AnnotationsFromTemplate.create anns template curatorId now with
        | .error e => .error (.creationFailed e.message)
        | .ok aft => .ok aft

/-- Observable external or persistent side effect of one execute run. -/
inductive Effect
  | publishCall
  | saveCall (id : String)
deriving DecidableEq, Repr

/-- The persistence loop of execute: annotations are saved one by one and
the first failing save aborts the run; every attempted save is recorded. -/
def saveLoop (saveResult : Annotation → Except String Unit) (ids : List String) :
    List Annotation → List Effect → Except UCError UCOutput × List Effect
  | [], effects => (.ok { annotationIds := ids }, effects)
  | a :: rest, effects =>
    match saveResult a with
    | .error m => (.error (.saveFailed "batch" m), effects ++ [.saveCall a.id])
    | .ok _ => saveLoop saveResult ids rest (effects ++ [.saveCall a.id])

/-- CreateAndPublishAnnotationsFromTemplateUseCase.execute: assembles the
validated batch, publishes it through the publisher port, marks every
annotation published from the returned map, then saves each annotation;
the publisher and the store are parameters (ports).  The second component
of the returned pair records the external and persistent side effects in
order. -/
def execute (env : UseCaseEnv) (isURL : String → Bool)
    (pub : AnnotationsFromTemplate → Except String (List (String × PublishedRecordId)))
    (saveResult : Annotation → Except String Unit) (now : Date)
    (dto : CreateAndPublishDTO) : Except UCError UCOutput × List Effect :=
  match assembleBatch env isURL now dto with
  | .error e => (.error e, [])
  | .ok aft =>
    match pub aft with
    | .error m => (.error (.publishFailed "batch" m), [.publishCall])
    | .ok publishedRecordIds =>
      match aft.markAllAnnotationsAsPublished publishedRecordIds with
      | (_, some m) => (.error (.publishFailed "batch" m), [.publishCall])
      | (aft2, none) =>
        saveLoop saveResult (aft2.annotations.map (fun a => a.id))
          aft2.annotations [.publishCall]

theorem CuratorId.val_eq_iff (x y : CuratorId) : x = y ↔ x.value = y.value := by
  cases x; cases y; simp

theorem applyOp_isSome (a : Annotation) (op : PipelineOp)
    (h : a.publishedRecordId.isSome) : ((applyOp a op).publishedRecordId).isSome := by
  cases op with
  | update v =>
    unfold applyOp Annotation.updateValue
    by_cases hc : a.value.isSameType v = true
    · simp [hc]
      exact h
    · simp [hc]
      exact h
  | mark r => simp [applyOp, Annotation.markAsPublished]
  | setRecordId r => simp [applyOp, Annotation.updatePublishedRecordId]

theorem foldl_applyOp_isSome (ops : List PipelineOp) (a : Annotation)
    (h : a.publishedRecordId.isSome) :
    ((ops.foldl applyOp a).publishedRecordId).isSome := by
  induction ops generalizing a with
  | nil => simpa using h
  | cons op rest ih => exact ih _ (applyOp_isSome a op h)

/-- C7: for every annotation a and candidate value v, updateValue fails
with InvalidValueType exactly when the type of v differs from the type of
the current value of a; otherwise it replaces the value and leaves every
other component of the state (identity, curatorId, url, field, note,
template ids, createdAt, publishedRecordId) unchanged. -/
theorem c7_updateValue_frame (a : Annotation) (v : AnnotationValue) :
    (a.updateValue v = .error .invalidValueType ↔ v.getType ≠ a.value.getType)
    ∧ (∀ a2, a.updateValue v = .ok a2 →
        a2.value = v ∧ a2.id = a.id ∧ a2.curatorId = a.curatorId ∧ a2.url = a.url
        ∧ a2.annotationField = a.annotationField ∧ a2.note = a.note
        ∧ a2.annotationTemplateIds = a.annotationTemplateIds
        ∧ a2.createdAt = a.createdAt
        ∧ a2.publishedRecordId = a.publishedRecordId) := by
  unfold Annotation.updateValue AnnotationValue.isSameType
  by_cases hc : a.value.getType = v.getType
  · constructor
    · simp [hc]
    · intro a2 h2
      simp [hc] at h2
      subst h2
      simp
  · constructor
    · simp [hc]
      exact fun h => hc (h.symm)
    · intro a2 h2
      simp [hc] at h2

/-- C5: when the four required props are present, Annotation.create fails
exactly when the type of the value differs from the declared type of the
field; when a required prop is absent, it fails with a missing-argument
error naming the first absent one (checked in the order curatorId, url,
annotationField, value). -/
theorem c5_create_validates (props : AnnotationProps) (id : String) (now : Date) :
    (∀ c u f v, props.curatorId = some c → props.url = some u →
      props.annotationField = some f → props.value = some v →
      (((∃ a, Annotation.create props id now = .ok a) ↔
          v.getType = f.definition.type)
        ∧ (v.getType ≠ f.definition.type →
            Annotation.create props id now = .error "Value does not match field type")))
    ∧ (props.curatorId = none →
        Annotation.create props id now = .error "curatorId is null or undefined")
    ∧ (props.curatorId.isSome → props.url = none →
        Annotation.create props id now = .error "url is null or undefined")
    ∧ (props.curatorId.isSome → props.url.isSome → props.annotationField = none →
        Annotation.create props id now
          = .error "annotationField is null or undefined")
    ∧ (props.curatorId.isSome → props.url.isSome → props.annotationField.isSome →
        props.value = none →
        Annotation.create props id now = .error "value is null or undefined") := by
  refine ⟨?_, ?_, ?_, ?_, ?_⟩
  · intro c u f v hc hu hf hv
    unfold Annotation.create
    rw [hc, hu, hf, hv]
    unfold AnnotationValue.matchesFieldType
    by_cases ht : v.getType = f.definition.type
    · simp [ht]
    · simp [ht]
  · intro hc
    unfold Annotation.create
    rw [hc]
  · intro hc hu
    unfold Annotation.create
    rw [hu]
    match hps : props.curatorId with
    | some c => rfl
    | none => rw [hps] at hc; simp at hc
  · intro hc hu hf
    unfold Annotation.create
    rw [hf]
    match hps : props.curatorId, hus : props.url with
    | some c, some u => rfl
    | none, _ => rw [hps] at hc; simp at hc
    | some _, none => rw [hus] at hu; simp at hu
  · intro hc hu hf hv
    unfold Annotation.create
    rw [hv]
    match hps : props.curatorId, hus : props.url, hfs : props.annotationField with
    | some c, some u, some f => rfl
    | none, _, _ => rw [hps] at hc; simp at hc
    | some _, none, _ => rw [hus] at hu; simp at hu
    | some _, some _, none => rw [hfs] at hf; simp at hf

/-- C6: publishedRecordId is none on every annotation created without one
(as the pipeline creates them), markAsPublished sets it, updateValue never
touches it, and no sequence of pipeline operations takes a published
annotation back to the unpublished state. -/
theorem c6_published_once (props : AnnotationProps) (id : String) (now : Date)
    (a : Annotation) (r : PublishedRecordId) (v : AnnotationValue)
    (ops : List PipelineOp) :
    (props.publishedRecordId = none →
      ∀ a0, Annotation.create props id now = .ok a0 → a0.publishedRecordId = none)
    ∧ ((a.markAsPublished r).publishedRecordId = some r)
    ∧ (∀ a2, a.updateValue v = .ok a2 →
        a2.publishedRecordId = a.publishedRecordId)
    ∧ (a.publishedRecordId.isSome →
        ((ops.foldl applyOp a).publishedRecordId).isSome) := by
  refine ⟨?_, rfl, ?_, foldl_applyOp_isSome ops a⟩
  · intro hnone a0 h0
    unfold Annotation.create at h0
    match hps : props.curatorId, hus : props.url, hfs : props.annotationField,
        hvs : props.value with
    | some c, some u, some f, some w =>
      rw [hps, hus, hfs, hvs] at h0
      by_cases ht : w.matchesFieldType f = true
      · simp [ht] at h0
        rw [← h0]
        exact hnone
      · simp [ht] at h0
    | none, _, _, _ => rw [hps] at h0; simp at h0
    | some _, none, _, _ => rw [hps, hus] at h0; simp at h0
    | some _, some _, none, _ => rw [hps, hus, hfs] at h0; simp at h0
    | some _, some _, some _, none => rw [hps, hus, hfs, hvs] at h0; simp at h0
  · intro a2 h2
    unfold Annotation.updateValue at h2
    by_cases hc : a.value.isSameType v = true
    · simp [hc] at h2
      rw [← h2]
    · simp [hc] at h2

/-- A concrete rating field used by witnesses. -/
def exField : AnnotationField :=
  { id := "f1", curatorId := { value := "did:plc:curator123" }, name := "Rating Field",
    description := "A rating field", definition := { type := .rating } }

/-- A concrete dyad field used by witnesses. -/
def exField2 : AnnotationField :=
  { id := "f2", curatorId := { value := "did:plc:curator123" }, name := "Note Field",
    description := "A dyad field", definition := { type := .dyad } }

/-- Concrete creation props used by witnesses. -/
def exProps : AnnotationProps :=
  { curatorId := some { value := "did:plc:curator123" }
    url := some { value := "https://example.com/resource" }
    annotationField := some exField
    value := some (.rating 4)
    annotationTemplateIds := some ["t1"]
    note := none
    createdAt := none
    publishedRecordId := none }

/-- A concrete annotation used by witnesses, as created by the pipeline. -/
def exAnn : Annotation :=
  { id := "ann-0", curatorId := { value := "did:plc:curator123" },
    url := { value := "https://example.com/resource" }, annotationField := exField,
    value := .rating 4, annotationTemplateIds := ["t1"], note := none,
    createdAt := some 0, publishedRecordId := none }

/-- A concrete published record id used by witnesses. -/
def exRecId : PublishedRecordId :=
  { uri := "at://did:plc:curator123/app.annos.annotation/ann-0", cid := "cid-0" }

theorem c5_witness :
    (∃ a, Annotation.create exProps "ann-0" 0 = .ok a)
    ∧ Annotation.create { exProps with value := none } "ann-0" 0
        = .error "value is null or undefined" := by
  constructor
  · exact (((c5_create_validates exProps "ann-0" 0).1
      { value := "did:plc:curator123" } { value := "https://example.com/resource" }
      exField (.rating 4) rfl rfl rfl rfl).1).mpr rfl
  · exact (c5_create_validates { exProps with value := none } "ann-0" 0).2.2.2.2
      (by decide) (by decide) (by decide) rfl

theorem c6_witness :
    ((exAnn.markAsPublished exRecId).publishedRecordId = some exRecId)
    ∧ ((([PipelineOp.update (.rating 5), PipelineOp.mark exRecId].foldl applyOp
          (exAnn.markAsPublished exRecId)).publishedRecordId).isSome) := by
  constructor
  · exact (c6_published_once exProps "ann-0" 0 exAnn exRecId (.rating 5) []).2.1
  · exact (c6_published_once exProps "ann-0" 0 (exAnn.markAsPublished exRecId)
      exRecId (.rating 5) [PipelineOp.update (.rating 5), PipelineOp.mark exRecId]).2.2.2
      (by decide)

theorem c7_witness :
    (exAnn.updateValue (.dyad 1) = .error .invalidValueType)
    ∧ ({ exAnn with value := AnnotationValue.rating 5 }.value = .rating 5) := by
  constructor
  · exact (c7_updateValue_frame exAnn (.dyad 1)).1.mpr (by decide)
  · exact ((c7_updateValue_frame exAnn (.rating 5)).2
      { exAnn with value := AnnotationValue.rating 5 } rfl).1

/-- C3: markAllAnnotationsAsPublished is all-or-nothing: when the map
omits an entry for the id of any annotation of the batch, it fails and
the aggregate is returned unchanged; when the map covers every id, it
succeeds, leaves the template and curator untouched, and applies each
individual mark-published transition of each annotation with its record id. -/
theorem c3_markAll_allOrNothing (aft : AnnotationsFromTemplate)
    (m : List (String × PublishedRecordId)) :
    ((∃ a ∈ aft.annotations, lookupRecordId m a.id = none) →
      aft.markAllAnnotationsAsPublished m
        = (aft, some "Missing published record id for annotation"))
    ∧ ((∀ a ∈ aft.annotations, (lookupRecordId m a.id).isSome) →
      (aft.markAllAnnotationsAsPublished m).2 = none
      ∧ (aft.markAllAnnotationsAsPublished m).1.template = aft.template
      ∧ (aft.markAllAnnotationsAsPublished m).1.curatorId = aft.curatorId
      ∧ ∀ i a, aft.annotations.get? i = some a →
          ∃ r, lookupRecordId m a.id = some r
          ∧ (aft.markAllAnnotationsAsPublished m).1.annotations.get? i
              = some (a.markAsPublished r)) := by
  unfold AnnotationsFromTemplate.markAllAnnotationsAsPublished
  constructor
  · intro hmiss
    obtain ⟨a, hmem, hnone⟩ := hmiss
    have hall : ¬(aft.annotations.all (fun a => (lookupRecordId m a.id).isSome) = true) := by
      intro hall
      rw [List.all_eq_true] at hall
      have := hall a hmem
      rw [hnone] at this
      simp at this
    simp [hall]
  · intro hcov
    have hall : aft.annotations.all (fun a => (lookupRecordId m a.id).isSome) = true := by
      rw [List.all_eq_true]
      intro a hmem
      have := hcov a hmem
      simpa using this
    simp only [hall, if_pos]
    refine ⟨trivial, trivial, trivial, ?_⟩
    intro i a hget
    have hmem : a ∈ aft.annotations := List.get?_mem hget
    have hsome := hcov a hmem
    match hr : lookupRecordId m a.id with
    | none => rw [hr] at hsome; simp at hsome
    | some r =>
      refine ⟨r, rfl, ?_⟩
      rw [List.get?_eq_getElem?] at hget ⊢
      simp only [List.getElem?_map, hget]
      simp [hr]

theorem missingRequiredIds_mem (anns : List Annotation)
    (template : AnnotationTemplate) (x : String) :
    x ∈ missingRequiredIds anns template ↔
      ∃ tf ∈ template.annotationFields, tf.required = true ∧ tf.field.id = x
        ∧ ¬∃ a ∈ anns, a.annotationField.id = x := by
  unfold missingRequiredIds
  simp only [List.mem_map, List.mem_filter, Bool.and_eq_true, Bool.not_eq_true',
    List.any_eq_false, beq_iff_eq]
  constructor
  · rintro ⟨tf, ⟨hmem, hreq, hnone⟩, hid⟩
    refine ⟨tf, hmem, hreq, hid, ?_⟩
    rintro ⟨a, hamem, haid⟩
    exact hnone a hamem (by rw [haid, hid])
  · rintro ⟨tf, hmem, hreq, hid, hno⟩
    refine ⟨tf, ⟨hmem, hreq, ?_⟩, hid⟩
    intro a hamem haid
    exact hno ⟨a, hamem, by rw [haid, hid]⟩

theorem missingRequiredIds_eq_nil (anns : List Annotation)
    (template : AnnotationTemplate) :
    missingRequiredIds anns template = [] ↔
      ∀ tf ∈ template.annotationFields, tf.required = true →
        ∃ a ∈ anns, a.annotationField.id = tf.field.id := by
  rw [List.eq_nil_iff_forall_not_mem]
  constructor
  · intro h tf hmem hreq
    by_contra hno
    exact h tf.field.id ((missingRequiredIds_mem anns template tf.field.id).mpr
      ⟨tf, hmem, hreq, rfl, hno⟩)
  · intro h x hx
    obtain ⟨tf, hmem, hreq, hid, hno⟩ := (missingRequiredIds_mem anns template x).mp hx
    exact hno (hid ▸ h tf hmem hreq)

theorem aft_curator_cond_iff (anns : List Annotation) (curatorId : CuratorId) :
    (anns.any (fun a => a.curatorId.value != curatorId.value) = false)
      ↔ ∀ a ∈ anns, a.curatorId = curatorId := by
  simp [List.any_eq_false, bne_iff_ne, CuratorId.val_eq_iff]

/-- C1: AnnotationsFromTemplate.create succeeds exactly when every
annotation of the batch has the batch curator id, the referenced field
ids contain no duplicates, and every required template field is covered;
the three checks run in that order, and the third failure names exactly
the ids of the required fields with no corresponding annotation. -/
theorem c1_aft_create_correct (anns : List Annotation)
    (template : AnnotationTemplate) (curatorId : CuratorId) (createdAt : Date) :
    ((∃ aft, AnnotationsFromTemplate.create anns template curatorId createdAt
        = .ok aft) ↔
      ((∀ a ∈ anns, a.curatorId = curatorId)
        ∧ (anns.map (fun a => a.annotationField.id)).Nodup
        ∧ (∀ tf ∈ template.annotationFields, tf.required = true →
            ∃ a ∈ anns, a.annotationField.id = tf.field.id)))
    ∧ (¬(∀ a ∈ anns, a.curatorId = curatorId) →
        AnnotationsFromTemplate.create anns template curatorId createdAt
          = .error .curatorMismatch)
    ∧ ((∀ a ∈ anns, a.curatorId = curatorId) →
        ¬(anns.map (fun a => a.annotationField.id)).Nodup →
        AnnotationsFromTemplate.create anns template curatorId createdAt
          = .error .duplicateFields)
    ∧ ((∀ a ∈ anns, a.curatorId = curatorId) →
        (anns.map (fun a => a.annotationField.id)).Nodup →
        ¬(∀ tf ∈ template.annotationFields, tf.required = true →
            ∃ a ∈ anns, a.annotationField.id = tf.field.id) →
        AnnotationsFromTemplate.create anns template curatorId createdAt
          = .error (.missingRequiredFields (missingRequiredIds anns template))
        ∧ missingRequiredIds anns template ≠ [])
    ∧ (∀ x, x ∈ missingRequiredIds anns template ↔
        ∃ tf ∈ template.annotationFields, tf.required = true ∧ tf.field.id = x
          ∧ ¬∃ a ∈ anns, a.annotationField.id = x) := by
  have herr1 : ¬(∀ a ∈ anns, a.curatorId = curatorId) →
      AnnotationsFromTemplate.create anns template curatorId createdAt
        = .error .curatorMismatch := by
    intro h1
    have hb : anns.any (fun a => a.curatorId.value != curatorId.value) = true := by
      rcases hb2 : anns.any (fun a => a.curatorId.value != curatorId.value) with _ | _
      · exact absurd ((aft_curator_cond_iff anns curatorId).mp hb2) h1
      · rfl
    unfold AnnotationsFromTemplate.create
    simp [hb]
  have herr2 : (∀ a ∈ anns, a.curatorId = curatorId) →
      ¬(anns.map (fun a => a.annotationField.id)).Nodup →
      AnnotationsFromTemplate.create anns template curatorId createdAt
        = .error .duplicateFields := by
    intro h1 h2
    have hb : anns.any (fun a => a.curatorId.value != curatorId.value) = false :=
      (aft_curator_cond_iff anns curatorId).mpr h1
    unfold AnnotationsFromTemplate.create
    simp [hb, h2]
  have herr3 : (∀ a ∈ anns, a.curatorId = curatorId) →
      (anns.map (fun a => a.annotationField.id)).Nodup →
      missingRequiredIds anns template ≠ [] →
      AnnotationsFromTemplate.create anns template curatorId createdAt
        = .error (.missingRequiredFields (missingRequiredIds anns template)) := by
    intro h1 h2 h3
    have hb : anns.any (fun a => a.curatorId.value != curatorId.value) = false :=
      (aft_curator_cond_iff anns curatorId).mpr h1
    unfold AnnotationsFromTemplate.create
    simp [hb, h2, List.isEmpty_iff, h3]
  have hok : (∀ a ∈ anns, a.curatorId = curatorId) →
      (anns.map (fun a => a.annotationField.id)).Nodup →
      missingRequiredIds anns template = [] →
      AnnotationsFromTemplate.create anns template curatorId createdAt
        = .ok { annotations := anns, template := template,
                curatorId := curatorId, createdAt := createdAt } := by
    intro h1 h2 h3
    have hb : anns.any (fun a => a.curatorId.value != curatorId.value) = false :=
      (aft_curator_cond_iff anns curatorId).mpr h1
    unfold AnnotationsFromTemplate.create
    simp [hb, h2, List.isEmpty_iff, h3]
  refine ⟨?_, herr1, herr2,
    fun h1 h2 h3 =>
      ⟨herr3 h1 h2 (fun hnil =>
          h3 ((missingRequiredIds_eq_nil anns template).mp hnil)),
        fun hnil => h3 ((missingRequiredIds_eq_nil anns template).mp hnil)⟩,
    missingRequiredIds_mem anns template⟩
  constructor
  · rintro ⟨aft, hcr⟩
    by_cases h1 : ∀ a ∈ anns, a.curatorId = curatorId
    · by_cases h2 : (anns.map (fun a => a.annotationField.id)).Nodup
      · by_cases h3 : missingRequiredIds anns template = []
        · exact ⟨h1, h2, (missingRequiredIds_eq_nil anns template).mp h3⟩
        · rw [herr3 h1 h2 h3] at hcr
          exact absurd hcr (by simp)
      · rw [herr2 h1 h2] at hcr
        exact absurd hcr (by simp)
    · rw [herr1 h1] at hcr
      exact absurd hcr (by simp)
  · rintro ⟨h1, h2, h3⟩
    exact ⟨_, hok h1 h2 ((missingRequiredIds_eq_nil anns template).mpr h3)⟩

/-- A concrete template (required rating field, optional dyad field) used
by witnesses. -/
def exTemplate : AnnotationTemplate :=
  { id := "t1", curatorId := { value := "did:plc:curator123" }, name := "Test Template",
    description := "Test Description",
    annotationFields := [{ field := exField, required := true },
                         { field := exField2, required := false }] }

/-- A concrete validated batch used by witnesses. -/
def exAft : AnnotationsFromTemplate :=
  { annotations := [exAnn], template := exTemplate,
    curatorId := { value := "did:plc:curator123" }, createdAt := 0 }

theorem c1_witness :
    (∃ aft, AnnotationsFromTemplate.create [exAnn] exTemplate
        { value := "did:plc:curator123" } 0 = .ok aft)
    ∧ AnnotationsFromTemplate.create [] exTemplate
        { value := "did:plc:curator123" } 0
        = .error (.missingRequiredFields ["f1"]) := by
  constructor
  · exact (c1_aft_create_correct [exAnn] exTemplate
      { value := "did:plc:curator123" } 0).1.mpr ⟨by decide, by decide, by decide⟩
  · have h := ((c1_aft_create_correct [] exTemplate
      { value := "did:plc:curator123" } 0).2.2.2.1 (by decide) (by decide)
      (by decide)).1
    rw [h, show missingRequiredIds [] exTemplate = ["f1"] from by decide]

theorem c3_witness :
    (exAft.markAllAnnotationsAsPublished []
      = (exAft, some "Missing published record id for annotation"))
    ∧ (exAft.markAllAnnotationsAsPublished [("ann-0", exRecId)]).2 = none := by
  constructor
  · exact (c3_markAll_allOrNothing exAft []).1 ⟨exAnn, by decide, by decide⟩
  · exact ((c3_markAll_allOrNothing exAft [("ann-0", exRecId)]).2 (by decide)).1

theorem collectResults_ok_iff (anns : List Annotation) (rs : List WriteResult) :
    (∃ out, collectResults anns rs = .ok out) ↔
      (anns.length ≤ rs.length
        ∧ ∀ i, i < anns.length → ∃ w, rs.get? i = some w ∧ w.isCreate = true) := by
  induction anns generalizing rs with
  | nil =>
    simp [collectResults]
  | cons a anns ih =>
    cases rs with
    | nil =>
      simp [collectResults]
    | cons w ws =>
      constructor
      · rintro ⟨out, hout⟩
        unfold collectResults at hout
        by_cases hw : w.isCreate = true
        · rw [if_pos hw] at hout
          match hrec : collectResults anns ws with
          | .error e => rw [hrec] at hout; simp at hout
          | .ok rest =>
            obtain ⟨hlen, hpos⟩ := (ih ws).mp ⟨rest, hrec⟩
            refine ⟨by simpa using Nat.succ_le_succ hlen, ?_⟩
            intro i hi
            cases i with
            | zero => exact ⟨w, rfl, hw⟩
            | succ j => exact hpos j (by simpa using hi)
        · rw [if_neg hw] at hout
          simp at hout
      · rintro ⟨hlen, hpos⟩
        have hw : w.isCreate = true := by
          obtain ⟨w0, hw0, hc0⟩ := hpos 0 (by simp)
          simp at hw0
          rw [← hw0] at hc0
          exact hc0
        obtain ⟨rest, hrest⟩ := (ih ws).mpr
          ⟨by simpa using hlen,
           fun i hi => by
             obtain ⟨w1, hw1, hc1⟩ := hpos (i + 1) (by simpa using hi)
             exact ⟨w1, by simpa using hw1, hc1⟩⟩
        refine ⟨(a.id, w.toPublishedRecordId) :: rest, ?_⟩
        unfold collectResults
        rw [if_pos hw, hrest]

theorem collectResults_ok_spec (anns : List Annotation) (rs : List WriteResult)
    (out : List (String × PublishedRecordId))
    (hout : collectResults anns rs = .ok out) :
    out.length = anns.length
    ∧ ∀ i a w, anns.get? i = some a → rs.get? i = some w →
        out.get? i = some (a.id, w.toPublishedRecordId) := by
  induction anns generalizing rs out with
  | nil =>
    unfold collectResults at hout
    simp at hout
    subst hout
    simp
  | cons a anns ih =>
    cases rs with
    | nil => unfold collectResults at hout; simp at hout
    | cons w ws =>
      unfold collectResults at hout
      by_cases hw : w.isCreate = true
      · rw [if_pos hw] at hout
        match hrec : collectResults anns ws with
        | .error e => rw [hrec] at hout; simp at hout
        | .ok rest =>
          rw [hrec] at hout
          simp at hout
          subst hout
          obtain ⟨hlen, hpos⟩ := ih ws rest hrec
          refine ⟨by simpa using hlen, ?_⟩
          intro i a1 w1 ha1 hw1
          cases i with
          | zero =>
            simp at ha1 hw1
            rw [← ha1, ← hw1]
            rfl
          | succ j =>
            simp only [List.get?_cons_succ] at ha1 hw1 ⊢
            exact hpos j a1 w1 ha1 hw1
      · rw [if_neg hw] at hout
        simp at hout

/-- C2 (amended): on success, publish returns exactly one published record
id per annotation, the one at position i built from the result at
position i of the external response; publish fails whenever the response
holds fewer results than the batch has annotations, or any result at an
input position is not a create confirmation.  Results beyond the input
count are ignored. -/
theorem c2_publish_aligned (aft : AnnotationsFromTemplate) (resp : AtpResponse) :
    (∀ out, (publish aft resp).1 = .ok out →
      out.length = aft.annotations.length
      ∧ ∀ i a w, aft.annotations.get? i = some a →
          (resp.results.getD []).get? i = some w →
          out.get? i = some (a.id, w.toPublishedRecordId))
    ∧ (((resp.results.getD []).length < aft.annotations.length
        ∨ ∃ i a w, aft.annotations.get? i = some a
            ∧ (resp.results.getD []).get? i = some w ∧ w.isCreate = false)
       → ∀ out, (publish aft resp).1 ≠ .ok out) := by
  obtain ⟨anns, t, c, d⟩ := aft
  constructor
  · intro out hout
    match anns with
    | [] =>
      simp [publish] at hout
    | a0 :: rest =>
      unfold publish at hout
      simp only at hout
      by_cases hc : a0.curatorId.value == ""
      · rw [if_pos hc] at hout
        simp at hout
      · rw [if_neg hc] at hout
        simp only at hout
        exact collectResults_ok_spec (a0 :: rest) (resp.results.getD []) out hout
  · intro hbad out hok
    match anns with
    | [] =>
      simp [publish] at hok
    | a0 :: rest =>
      unfold publish at hok
      simp only at hok
      by_cases hc : a0.curatorId.value == ""
      · rw [if_pos hc] at hok
        simp at hok
      · rw [if_neg hc] at hok
        simp only at hok
        obtain ⟨hlen, hpos⟩ :=
          (collectResults_ok_iff (a0 :: rest) (resp.results.getD [])).mp ⟨out, hok⟩
        simp only at hbad
        rcases hbad with hshort | ⟨i, a, w, ha, hw, hnc⟩
        · omega
        · have hi : i < (a0 :: rest).length := by
            rw [List.get?_eq_getElem?] at ha
            exact (List.getElem?_eq_some_iff.mp ha).1
          obtain ⟨w2, hw2, hc2⟩ := hpos i hi
          rw [hw2] at hw
          simp at hw
          rw [hw] at hc2
          rw [hc2] at hnc
          simp at hnc

/-- The response with two create confirmations used by the C2
counterexample and the publisher witnesses. -/
def exResp2 : AtpResponse :=
  { results := some [.createResult "u1" "c1", .createResult "u2" "c2"] }

/-- C2 counterexample: a batch of one annotation against a response of two
create results: the result count (2) differs from the input count (1) and
yet publish succeeds instead of failing the whole operation — extra
results are ignored, so the claimed count-mismatch failure does not hold. -/
theorem c2_counterexample :
    (publish exAft exResp2).1 = .ok [("ann-0", { uri := "u1", cid := "c1" })]
    ∧ (exResp2.results.getD []).length ≠ exAft.annotations.length := by
  constructor
  · rfl
  · decide

theorem c2_witness :
    ∀ out, (publish exAft { results := some [] }).1 ≠ .ok out :=
  (c2_publish_aligned exAft { results := some [] }).2 (Or.inl (by decide))

/-- C9: publish on an empty batch fails with "No curator DID found in
annotations" and sends no write request; on a non-empty batch with a
curator DID on its first annotation, exactly one multi-write request is
issued, under the curator id of the first annotation as the repository
identity. -/
theorem c9_publish_curator_repo (aft : AnnotationsFromTemplate) (resp : AtpResponse) :
    (aft.annotations = [] →
      publish aft resp = (.error "No curator DID found in annotations", []))
    ∧ (∀ a0 rest, aft.annotations = a0 :: rest → a0.curatorId.value ≠ "" →
        (publish aft resp).2
          = [{ repo := a0.curatorId.value,
               writes := toCreateOperations aft COLLECTION }]) := by
  constructor
  · intro hnil
    unfold publish
    rw [hnil]
  · intro a0 rest hcons hce
    unfold publish
    rw [hcons]
    simp only
    rw [if_neg (by simpa using hce)]

/-- The empty batch used by the C9 witness. -/
def exAftEmpty : AnnotationsFromTemplate :=
  { annotations := [], template := exTemplate,
    curatorId := { value := "did:plc:curator123" }, createdAt := 0 }

theorem c9_witness :
    (publish exAftEmpty exResp2
      = (.error "No curator DID found in annotations", []))
    ∧ (publish exAft exResp2).2
        = [{ repo := "did:plc:curator123",
             writes := [{ collection := "app.annos.annotation", rkey := "ann-0" }] }] := by
  constructor
  · exact (c9_publish_curator_repo exAftEmpty exResp2).1 rfl
  · have h := (c9_publish_curator_repo exAft exResp2).2 exAnn [] rfl (by decide)
    rw [h]
    rfl

theorem atUri_make_len (s : String) :
    ((jsSplit '/' s).length ≠ 5 → ATUri.make s = .error "Invalid AT URI")
    ∧ ((jsSplit '/' s).length = 5 → ∃ u, ATUri.make s = .ok u) := by
  unfold ATUri.make
  match h : jsSplit '/' s with
  | [] => simp
  | [p0] => simp
  | [p0, p1] => simp
  | [p0, p1, p2] => simp
  | [p0, p1, p2, p3] => simp
  | [p0, p1, p2, p3, p4] =>
    constructor
    · intro hlen
      simp at hlen
    · intro _
      exact ⟨_, rfl⟩
  | p0 :: p1 :: p2 :: p3 :: p4 :: p5 :: rest =>
    constructor
    · intro _
      rfl
    · intro hlen
      simp at hlen

theorem groupLoop_error (recordIds : List PublishedRecordId) :
    ∀ groups, (∃ r ∈ recordIds, (jsSplit '/' r.uri).length ≠ 5) →
      groupLoop groups recordIds = .error "Invalid AT URI" := by
  induction recordIds with
  | nil => rintro groups ⟨r, hmem, _⟩; simp at hmem
  | cons r0 rest ih =>
    rintro groups ⟨r, hmem, hbad⟩
    unfold groupLoop
    rcases List.mem_cons.mp hmem with heq | htail
    · subst heq
      rw [(atUri_make_len r.uri).1 hbad]
    · match hmk : ATUri.make r0.uri with
      | .error e =>
        have : e = "Invalid AT URI" := by
          rcases hlen : (jsSplit '/' r0.uri).length with _ | n
          · have := (atUri_make_len r0.uri).1 (by omega)
            rw [this] at hmk
            exact (Except.error.injEq _ _).mp hmk.symm
          · by_cases h5 : n + 1 = 5
            · obtain ⟨u, hu⟩ := (atUri_make_len r0.uri).2 (by omega)
              rw [hu] at hmk
              simp at hmk
            · have := (atUri_make_len r0.uri).1 (by omega)
              rw [this] at hmk
              exact (Except.error.injEq _ _).mp hmk.symm
        rw [this]
      | .ok atUri =>
        exact ih _ ⟨r, htail, hbad⟩

theorem groupLoop_ok (recordIds : List PublishedRecordId) :
    ∀ groups, (∀ r ∈ recordIds, (jsSplit '/' r.uri).length = 5) →
      ∃ g, groupLoop groups recordIds = .ok g := by
  induction recordIds with
  | nil => intro groups _; exact ⟨groups, rfl⟩
  | cons r0 rest ih =>
    intro groups hall
    obtain ⟨u, hu⟩ := (atUri_make_len r0.uri).2 (hall r0 (by simp))
    unfold groupLoop
    rw [hu]
    exact ih _ (fun r hr => hall r (List.mem_cons_of_mem _ hr))

/-- C10: unpublish parses and groups every record uri before any delete
request is issued: when any record uri does not split into exactly five
slash-separated segments, the whole call returns the "Invalid AT URI"
error with no delete request issued; when every uri parses, the call
succeeds; and any issued delete request implies every uri parsed. -/
theorem c10_unpublish_parse_first (recordIds : List PublishedRecordId) :
    ((∃ r ∈ recordIds, (jsSplit '/' r.uri).length ≠ 5) →
      unpublish recordIds = (.error "Invalid AT URI", []))
    ∧ ((∀ r ∈ recordIds, (jsSplit '/' r.uri).length = 5) →
      (unpublish recordIds).1 = .ok ())
    ∧ ((unpublish recordIds).2 ≠ [] →
      ∀ r ∈ recordIds, (jsSplit '/' r.uri).length = 5) := by
  refine ⟨?_, ?_, ?_⟩
  · intro hbad
    unfold unpublish groupRecords
    rw [groupLoop_error recordIds [] hbad]
  · intro hall
    obtain ⟨g, hg⟩ := groupLoop_ok recordIds [] hall
    unfold unpublish groupRecords
    rw [hg]
  · intro hne r hmem
    by_contra hbad
    have := groupLoop_error recordIds [] ⟨r, hmem, hbad⟩
    unfold unpublish groupRecords at hne
    rw [this] at hne
    simp at hne

/-- Record ids used by the C10 witness: one well-formed at:// uri and one
malformed uri. -/
def exGoodRec : PublishedRecordId :=
  { uri := "at://did:plc:curator123/app.annos.annotation/rkey1", cid := "cid1" }

/-- A malformed record id (its uri has no five slash-separated segments). -/
def exBadRec : PublishedRecordId := { uri := "https://example.com", cid := "cid2" }

theorem c10_witness :
    (unpublish [exGoodRec, exBadRec] = (.error "Invalid AT URI", []))
    ∧ (unpublish [exGoodRec]).1 = .ok () := by
  constructor
  · exact (c10_unpublish_parse_first [exGoodRec, exBadRec]).1
      ⟨exBadRec, by decide, by decide⟩
  · exact (c10_unpublish_parse_first [exGoodRec]).2.1 (by decide)

/-- C8: URI.create accepts exactly the strings accepted by the host URL
parser together with the "at://" strings containing a match of the ledger
uri pattern scheme://authority/collection-name/record-key; every other
string yields a format-error failure value (the function is total, so no
exception crosses its boundary), and an accepted string is wrapped
unchanged. -/
theorem c8_uri_create (isURL : String → Bool) (s : String) :
    ((∃ u, URI.create isURL s = .ok u) ↔
      (isURL s = true
        ∨ (startsWithAtScheme s = true ∧ ledgerPatternTest s.data = true)))
    ∧ (∀ u, URI.create isURL s = .ok u → u.value = s)
    ∧ (URI.create isURL s = .ok { value := s }
        ∨ URI.create isURL s = .error ("Invalid AT URI format: " ++ s)
        ∨ URI.create isURL s = .error ("Invalid URI format: " ++ s)) := by
  unfold URI.create
  by_cases h1 : isURL s = true
  · simp [h1]
  · by_cases h2 : startsWithAtScheme s = true
    · by_cases h3 : ledgerPatternTest s.data = true
      · simp [h1, h2, h3]
      · simp [h1, h2, h3]
    · simp [h1, h2]

/-- The host URL parser used by the C8 witness: accepts one fixed
standard url. -/
def exIsURL : String → Bool := fun s => s == "https://example.com/resource"

theorem c8_witness :
    (∃ u, URI.create exIsURL "at://host/app.annos.annotation/rkey1" = .ok u)
    ∧ (∃ u, URI.create exIsURL "https://example.com/resource" = .ok u)
    ∧ ¬(∃ u, URI.create exIsURL "nonsense" = .ok u) := by
  refine ⟨?_, ?_, ?_⟩
  · exact (c8_uri_create exIsURL "at://host/app.annos.annotation/rkey1").1.mpr
      (Or.inr ⟨by decide, by decide⟩)
  · exact (c8_uri_create exIsURL "https://example.com/resource").1.mpr
      (Or.inl (by decide))
  · intro hex
    rcases (c8_uri_create exIsURL "nonsense").1.mp hex with h | ⟨h, _⟩
    · exact absurd h (by decide)
    · exact absurd h (by decide)

/-- C4: the use case is fail-fast up to and including batch assembly: when
any step of the pre-publish pipeline (value objects, template lookup,
per-input field lookup, type check, value construction, annotation
construction, batch invariant check) fails, execute returns that error
with no publish and no save effect; conversely any recorded external or
persistent effect implies the whole batch assembly succeeded. -/
theorem c4_failfast_no_side_effects (env : UseCaseEnv) (isURL : String → Bool)
    (pub : AnnotationsFromTemplate → Except String (List (String × PublishedRecordId)))
    (saveResult : Annotation → Except String Unit) (now : Date)
    (dto : CreateAndPublishDTO) :
    (∀ e, assembleBatch env isURL now dto = .error e →
      execute env isURL pub saveResult now dto = (.error e, []))
    ∧ ((execute env isURL pub saveResult now dto).2 ≠ [] →
        ∃ aft, assembleBatch env isURL now dto = .ok aft) := by
  constructor
  · intro e he
    unfold execute
    rw [he]
  · intro hne
    match hab : assembleBatch env isURL now dto with
    | .error e =>
      unfold execute at hne
      rw [hab] at hne
      simp at hne
    | .ok aft => exact ⟨aft, rfl⟩

/-- The stores used by the C4 witness. -/
def exEnv : UseCaseEnv :=
  { templates := [("t1", exTemplate)],
    fields := [("f1", exField), ("f2", exField2)] }

/-- An input DTO with a malformed (empty) curator id, used by the C4
witness. -/
def exBadDTO : CreateAndPublishDTO :=
  { curatorId := "", url := "https://example.com/resource", templateId := "t1",
    annotations := [{ annotationFieldId := "f1", type := "rating",
                      value := .rating 4, note := none }] }

theorem c4_witness :
    execute exEnv exIsURL (fun _ => .error "transport down") (fun _ => .ok ()) 0
      exBadDTO
      = (.error (.creationFailed "Invalid common properties"), []) :=
  (c4_failfast_no_side_effects exEnv exIsURL (fun _ => .error "transport down")
    (fun _ => .ok ()) 0 exBadDTO).1 (.creationFailed "Invalid common properties") rfl
